import Mathlib

/-!
Shallow embedding of `src/utils/validation.ts`: a library of pure input
validators over arbitrary JavaScript values, sharing the tagged result type
`ValidationResult`, plus the sequencer `validateAll`.

JavaScript values are modelled by `JSValue`: strings, numbers (NaN, the two
infinities, and finite doubles modelled as rationals — finite doubles are
dyadic rationals, and the order and integrality tests used by the code agree
with the rational ones), and a catch-all `other` for every remaining runtime
type.  Regular expressions and the platform URL parser are modelled as
boolean predicates on strings, since neither is code of this repository.
-/

namespace Validation

/-- A JavaScript number: NaN, +Infinity, -Infinity, or a finite double
(modelled as a rational). -/
inductive JSNumber where
  | nan
  | posInf
  | negInf
  | finite (q : Rat)
deriving DecidableEq, Repr

/-- A JavaScript runtime value as seen through `typeof` by the validators:
a string, a number, or anything else. -/
inductive JSValue where
  | str (s : String)
  | num (n : JSNumber)
  | other
deriving DecidableEq, Repr

/-- `ValidationResult<T>` from the source: `{valid: true, value}` or
`{valid: false, error}`. -/
inductive ValidationResult (T : Type) where
  | valid (value : T)
  | invalid (error : String)
deriving DecidableEq, Repr

/-- `typeof value === "string"`. -/
def JSValue.isString : JSValue → Bool
  | .str _ => true
  | _ => false

/-- `Number.isFinite` restricted to numbers. -/
def JSNumber.isFinite : JSNumber → Bool
  | .finite _ => true
  | _ => false

/-- `Number.isInteger` restricted to numbers: a finite double is an integer
iff its rational value has denominator 1 (`Number.isInteger` is false on
NaN and the infinities). -/
def JSNumber.isInteger : JSNumber → Bool
  | .finite q => q.den == 1
  | _ => false

/-- `typeof value === "number" && Number.isFinite(value)`. -/
def JSValue.isFiniteNumber : JSValue → Bool
  | .num n => n.isFinite
  | _ => false

/-- `typeof value === "number" && Number.isInteger(value)`. -/
def JSValue.isIntegerNumber : JSValue → Bool
  | .num n => n.isInteger
  | _ => false

/-- `String.prototype.trim`: remove leading and trailing whitespace
(a platform string operation, modelled structurally over the character
list with `Char.isWhitespace` as the whitespace class). -/
def jsTrim (s : String) : String :=
  ⟨((s.toList.dropWhile Char.isWhitespace).reverse.dropWhile
      Char.isWhitespace).reverse⟩

/-- `validateNonEmpty` from the source: non-strings fail with the
string-type message; strings are trimmed and must be non-empty. -/
def validateNonEmpty (value : JSValue) (fieldName : String := "Field") :
    ValidationResult String :=
  match value with
  | .str s =>
    let trimmed := jsTrim s
    if trimmed.length == 0 then
      .invalid (fieldName ++ " cannot be empty")
    else
      .valid trimmed
  | _ => .invalid (fieldName ++ " must be a string")

/-- `validatePattern` from the source; the `RegExp`'s `test` method is
modelled as a boolean predicate on strings.  Both the non-string case and
the non-matching case return the caller-supplied `errorMessage`. -/
def validatePattern (value : JSValue) (pattern : String → Bool)
    (errorMessage : String) : ValidationResult String :=
  match value with
  | .str s =>
    if !(pattern s) then .invalid errorMessage else .valid s
  | _ => .invalid errorMessage

/-- `validateMinLength` from the source. -/
def validateMinLength (value : JSValue) (minLength : Int)
    (fieldName : String := "Field") : ValidationResult String :=
  match value with
  | .str s =>
    if (s.length : Int) < minLength then
      .invalid (fieldName ++ " must be at least " ++ toString minLength ++
        " character" ++ (if minLength == 1 then "" else "s"))
    else
      .valid s
  | _ => .invalid (fieldName ++ " must be a string")

/-- `validateMaxLength` from the source. -/
def validateMaxLength (value : JSValue) (maxLength : Int)
    (fieldName : String := "Field") : ValidationResult String :=
  match value with
  | .str s =>
    if (s.length : Int) > maxLength then
      .invalid (fieldName ++ " must be at most " ++ toString maxLength ++
        " character" ++ (if maxLength == 1 then "" else "s"))
    else
      .valid s
  | _ => .invalid (fieldName ++ " must be a string")

/-- `validateLength` from the source: run `validateMinLength`; if it fails
return that failure, otherwise run `validateMaxLength` on its value. -/
def validateLength (value : JSValue) (minLength maxLength : Int)
    (fieldName : String := "Field") : ValidationResult String :=
  match validateMinLength value minLength fieldName with
  | .invalid e => .invalid e
  | .valid v => validateMaxLength (.str v) maxLength fieldName

/-- The email regular expression from the source,
`^[^\s@]+@[^\s@]+\.[^\s@]+$`: the string splits at a unique `@` into a
non-empty whitespace-free part, and a whitespace-free part containing a
dot that is neither its first nor its last character. -/
def emailPattern (s : String) : Bool :=
  match s.splitOn "@" with
  | [before, after] =>
    before ≠ "" &&
    before.toList.all (fun c => !c.isWhitespace) &&
    after.toList.all (fun c => !c.isWhitespace) &&
    ((after.toList.drop 1).dropLast).contains '.'
  | _ => false

/-- `validateEmail` from the source: delegates to `validatePattern` with
`emailPattern` and the fixed email message. -/
def validateEmail (value : JSValue) (fieldName : String := "Email") :
    ValidationResult String :=
  validatePattern value emailPattern (fieldName ++ " must be a valid email address")

/-- `validateUrl` from the source; the platform `URL` constructor is not
code of this repository, so it is taken as a parameter `canParse`
(`new URL(value)` succeeds iff `canParse value = true`).  The `typeof`
check runs first, so non-strings get the string-type message. -/
def validateUrl (canParse : String → Bool) (value : JSValue)
    (fieldName : String := "URL") : ValidationResult String :=
  match value with
  | .str s =>
    if canParse s then .valid s
    else .invalid (fieldName ++ " must be a valid URL")
  | _ => .invalid (fieldName ++ " must be a string")

/-- Modelled from the spec: the WHATWG URL parser behind `new URL` is a
platform builtin absent from the repository.  The spec's examples say
`"https://example.com"` parses while `"example.com"` (no scheme) does not,
so the model accepts exactly the strings that start with an ASCII letter
and contain a `:`. -/
def urlParseModel (s : String) : Bool :=
  match s.toList with
  | c :: rest => c.isAlpha && rest.contains ':'
  | [] => false

/-- `validateOneOf` from the source: membership in the allowed options,
with the rejection message listing the double-quoted options joined by
`", "`. -/
def validateOneOf (value : JSValue) (options : List String)
    (fieldName : String := "Field") : ValidationResult String :=
  match value with
  | .str s =>
    if !(options.contains s) then
      let optionsList := String.intercalate ", "
        (options.map (fun opt => "\"" ++ opt ++ "\""))
      .invalid (fieldName ++ " must be one of: " ++ optionsList)
    else
      .valid s
  | _ => .invalid (fieldName ++ " must be a string")

/-- The element type of `validateAll`'s `validators` array:
`(val: unknown) => ValidationResult` (i.e. `ValidationResult<string>`). -/
abbrev Validator := JSValue → ValidationResult String

/-- The `for` loop of `validateAll`: run the validators in order on the
working value; a failure returns that `Invalid` result (`Sum.inl`),
otherwise the `Valid` value (a string) becomes the next working value and
the loop ends with the final working value (`Sum.inr`). -/
def validateAllLoop (value : JSValue) :
    List Validator → (ValidationResult JSValue) ⊕ JSValue
  | [] => .inr value
  | validator :: rest =>
    match validator value with
    | .invalid e => .inl (.invalid e)
    | .valid v => validateAllLoop (.str v) rest

/-- `validateAll` from the source: the loop, then the tail
`const lastResult = validators[validators.length - 1]?.(value);
return lastResult?.valid ? {valid: true, value: lastResult.value}
: {valid: true, value};` — the last validator (when the array is
non-empty) is re-invoked on the already-updated working value. -/
def validateAll (value : JSValue) (validators : List Validator) :
    ValidationResult JSValue :=
  match validateAllLoop value validators with
  | .inl result => result
  | .inr working =>
    match validators.getLast? with
    | some lastValidator =>
      match lastValidator working with
      | .valid v => .valid (.str v)
      | .invalid _ => .valid working
    | none => .valid working

/-- `validateNumberRange` from the source: non-numbers and non-finite
numbers get the finite-number message; finite numbers outside the
inclusive range `[min, max]` get the between message. -/
def validateNumberRange (value : JSValue) (min max : Rat)
    (fieldName : String := "Number") : ValidationResult Rat :=
  match value with
  | .num (.finite q) =>
    if q < min || q > max then
      .invalid (fieldName ++ " must be between " ++ toString min ++
        " and " ++ toString max)
    else
      .valid q
  | _ => .invalid (fieldName ++ " must be a finite number")

/-- `validatePositiveInteger` from the source: `Number.isInteger` is false
on non-numbers, NaN and the infinities, so only a finite double with
denominator 1 passes the integer check; it must then be positive. -/
def validatePositiveInteger (value : JSValue)
    (fieldName : String := "Number") : ValidationResult Rat :=
  match value with
  | .num (.finite q) =>
    if !(q.den == 1) then
      .invalid (fieldName ++ " must be an integer")
    else if q ≤ 0 then
      .invalid (fieldName ++ " must be a positive integer")
    else
      .valid q
  | _ => .invalid (fieldName ++ " must be an integer")

/-! ### Concrete validators used as test inputs for the sequencer -/

/-- `validateNonEmpty` with the default field name, as a `Validator`. -/
def nonEmptyV : Validator := fun v => validateNonEmpty v "Field"

/-- `validateMinLength` with bound 5 and the default field name. -/
def minLength5V : Validator := fun v => validateMinLength v 5 "Field"

/-- A well-typed but non-idempotent validator: accepts every value and
appends an `x` to the string (or returns `"x"` for non-strings). -/
def appendX : Validator := fun v =>
  match v with
  | .str s => .valid (s ++ "x")
  | _ => .valid "x"

/-- A validator that normalizes `"a"` to the empty string and rejects
everything else — its re-invocation on its own output fails. -/
def shrinkA : Validator := fun v =>
  match v with
  | .str s => if s == "a" then .valid "" else .invalid "empty"
  | _ => .invalid "not a string"

/-! ### Helper lemmas -/

/-- The sequencer loop over an appended list: run the first part; a failure
is final, otherwise continue from its working value. -/
theorem validateAllLoop_append (value : JSValue) (vs1 vs2 : List Validator) :
    validateAllLoop value (vs1 ++ vs2) =
      (match validateAllLoop value vs1 with
       | .inl r => .inl r
       | .inr w => validateAllLoop w vs2) := by
  induction vs1 generalizing value with
  | nil => rfl
  | cons v rest ih =>
    show validateAllLoop value (v :: (rest ++ vs2)) = _
    cases h : v value with
    | invalid e => simp [validateAllLoop, h]
    | valid s => simp [validateAllLoop, h, ih]

/-! ### Claims -/

/-- Claim C1, counterexample: on a non-string input, `validateEmail` returns
`Invalid` carrying the fixed email-format message, not a type-error
message — the string-type wording used by every other validator is
`"{field} must be a string"`, and the error differs from it. -/
theorem email_nonstring_gets_format_message :
    validateEmail JSValue.other "Email" =
      .invalid "Email must be a valid email address" ∧
    validateEmail JSValue.other "Email" ≠ .invalid "Email must be a string" :=
  ⟨rfl, by decide⟩

/-- Claim C1 (amended): every string validator is total and returns
`Invalid` on every non-string input; `validateNonEmpty`,
`validateMinLength`, `validateMaxLength`, `validateLength`, `validateUrl`
and `validateOneOf` return the string-type message
`"{field} must be a string"`, while `validatePattern` returns the
caller-supplied fixed message and `validateEmail` the fixed email-format
message. -/
theorem string_validators_reject_nonstrings (v : JSValue)
    (h : v.isString = false) (f m : String) (p : String → Bool)
    (n k : Int) (opts : List String) (cp : String → Bool) :
    validateNonEmpty v f = .invalid (f ++ " must be a string") ∧
    validateMinLength v n f = .invalid (f ++ " must be a string") ∧
    validateMaxLength v k f = .invalid (f ++ " must be a string") ∧
    validateLength v n k f = .invalid (f ++ " must be a string") ∧
    validateUrl cp v f = .invalid (f ++ " must be a string") ∧
    validateOneOf v opts f = .invalid (f ++ " must be a string") ∧
    validatePattern v p m = .invalid m ∧
    validateEmail v f = .invalid (f ++ " must be a valid email address") := by
  cases v with
  | str s => simp [JSValue.isString] at h
  | num n => exact ⟨rfl, rfl, rfl, rfl, rfl, rfl, rfl, rfl⟩
  | other => exact ⟨rfl, rfl, rfl, rfl, rfl, rfl, rfl, rfl⟩

/-- Claim C1, witness: the amended theorem applied to the number `NaN`. -/
theorem string_validators_reject_nonstrings_witness :
    (JSValue.num JSNumber.nan).isString = false ∧
    (validateNonEmpty (.num .nan) "Field" = .invalid "Field must be a string" ∧
     validateMinLength (.num .nan) 1 "Field" = .invalid "Field must be a string" ∧
     validateMaxLength (.num .nan) 2 "Field" = .invalid "Field must be a string" ∧
     validateLength (.num .nan) 1 2 "Field" = .invalid "Field must be a string" ∧
     validateUrl urlParseModel (.num .nan) "Field" = .invalid "Field must be a string" ∧
     validateOneOf (.num .nan) ["red"] "Field" = .invalid "Field must be a string" ∧
     validatePattern (.num .nan) emailPattern "fixed message" = .invalid "fixed message" ∧
     validateEmail (.num .nan) "Field" = .invalid "Field must be a valid email address") :=
  ⟨rfl, string_validators_reject_nonstrings (.num .nan) rfl "Field"
    "fixed message" emailPattern 1 2 ["red"] urlParseModel⟩

/-- Claim C2, counterexample: with the single validator `appendX`, every
validator in the loop succeeds and the loop's last result value is
`"ax"`, yet `validateAll` returns `Valid "axx"` — the value produced by
re-invoking the final validator — which is not the loop's last result
value, so the claimed equivalence fails for non-idempotent validators. -/
theorem validateAll_differs_from_loop_value :
    appendX (.str "a") = .valid "ax" ∧
    validateAllLoop (.str "a") [appendX] = .inr (.str "ax") ∧
    validateAll (.str "a") [appendX] = .valid (.str "axx") ∧
    validateAll (.str "a") [appendX] ≠ .valid (.str "ax") :=
  ⟨rfl, rfl, rfl, by decide⟩

/-- Claim C2 (amended): when every validator in the loop succeeds and the
extra re-invocation of the final validator on the already-updated working
value also succeeds, `validateAll` returns `Valid` carrying the
re-invocation's value (which coincides with the loop's last result value
only for validators idempotent on their own output). -/
theorem validateAll_returns_reinvocation_value (value : JSValue)
    (vs : List Validator) (lastV : Validator) (w : JSValue) (s : String)
    (hlast : vs.getLast? = some lastV)
    (hloop : validateAllLoop value vs = .inr w)
    (hre : lastV w = .valid s) :
    validateAll value vs = .valid (.str s) := by
  simp [validateAll, hloop, hlast, hre]

/-- Claim C2, witness: the amended theorem at `appendX` on `"a"`. -/
theorem validateAll_returns_reinvocation_value_witness :
    [appendX].getLast? = some appendX ∧
    validateAllLoop (.str "a") [appendX] = .inr (.str "ax") ∧
    appendX (.str "ax") = .valid "axx" ∧
    validateAll (.str "a") [appendX] = .valid (.str "axx") :=
  ⟨rfl, rfl, rfl, validateAll_returns_reinvocation_value (.str "a")
    [appendX] appendX (.str "ax") "axx" rfl rfl rfl⟩

/-- Claim C3: `validateAll` runs the validators in order, threading each
`Valid` value into the next validator (the loop hypothesis), and the
first validator that returns `Invalid` determines the overall result:
that exact `Invalid` is returned, independently of every later
validator. -/
theorem validateAll_short_circuits_on_first_invalid (value : JSValue)
    (vs1 : List Validator) (v : Validator) (vs2 : List Validator)
    (w : JSValue) (e : String)
    (hok : validateAllLoop value vs1 = .inr w)
    (hfail : v w = .invalid e) :
    validateAll value (vs1 ++ v :: vs2) = .invalid e := by
  unfold validateAll
  rw [validateAllLoop_append, hok]
  simp [validateAllLoop, hfail]

/-- Claim C3, witness: the spec's example — `[nonEmpty, minLength 5]` on
`"hi"` fails with the min-length error, non-empty having passed. -/
theorem validateAll_short_circuits_on_first_invalid_witness :
    validateAllLoop (.str "hi") [nonEmptyV] = .inr (.str "hi") ∧
    minLength5V (.str "hi") = .invalid "Field must be at least 5 characters" ∧
    validateAll (.str "hi") ([nonEmptyV] ++ minLength5V :: []) =
      .invalid "Field must be at least 5 characters" :=
  ⟨rfl, rfl, validateAll_short_circuits_on_first_invalid (.str "hi")
    [nonEmptyV] minLength5V [] (.str "hi")
    "Field must be at least 5 characters" rfl rfl⟩

/-- The spec's wording for the length-range validator: run the min-length
check, return its failure if any, otherwise run the max-length check on
its value. -/
def validateLengthSpec (value : JSValue) (minLength maxLength : Int)
    (fieldName : String) : ValidationResult String :=
  match validateMinLength value minLength fieldName with
  | .invalid e => .invalid e
  | .valid v => validateMaxLength (.str v) maxLength fieldName

/-- Claim C4: `validateLength` coincides with the spec-side
min-then-max composition on every input, and when both bounds are
violated the min-length failure wins: `validateLength "hi" 3 5` yields
the min-length error. -/
theorem validateLength_delegates_min_then_max (value : JSValue)
    (minL maxL : Int) (f : String) :
    validateLength value minL maxL f = validateLengthSpec value minL maxL f ∧
    validateLength (.str "hi") 3 5 "Field" =
      .invalid "Field must be at least 3 characters" :=
  ⟨rfl, by decide⟩

/-- Claim C5: `validateNumberRange` returns the finite-number message on
every value that is not a finite number (non-numbers, NaN, the two
infinities); the between message on finite numbers strictly below `lo` or
strictly above `hi`; and `Valid` with the number itself on every finite
number in the inclusive range. -/
theorem validateNumberRange_cases (v : JSValue) (lo hi : Rat) (f : String) :
    (v.isFiniteNumber = false →
      validateNumberRange v lo hi f =
        .invalid (f ++ " must be a finite number")) ∧
    (∀ q : Rat, v = .num (.finite q) → (q < lo ∨ q > hi) →
      validateNumberRange v lo hi f =
        .invalid (f ++ " must be between " ++ toString lo ++ " and " ++
          toString hi)) ∧
    (∀ q : Rat, v = .num (.finite q) → lo ≤ q → q ≤ hi →
      validateNumberRange v lo hi f = .valid q) := by
  refine ⟨?_, ?_, ?_⟩
  · intro h
    cases v with
    | str s => rfl
    | other => rfl
    | num n =>
      cases n with
      | nan => rfl
      | posInf => rfl
      | negInf => rfl
      | finite q => simp [JSValue.isFiniteNumber, JSNumber.isFinite] at h
  · intro q hq hrange
    subst hq
    rcases hrange with h | h
    · simp [validateNumberRange, h]
    · simp [validateNumberRange, h]
  · intro q hq h1 h2
    subst hq
    have hc1 : ¬(q < lo) := not_lt.mpr h1
    have hc2 : ¬(hi < q) := not_lt.mpr h2
    simp [validateNumberRange, hc1, hc2]

/-- Claim C5, witness: NaN is rejected as non-finite, 5 is rejected
against the range `[0, 3]`, and 2 is accepted. -/
theorem validateNumberRange_cases_witness :
    (JSValue.num JSNumber.nan).isFiniteNumber = false ∧
    validateNumberRange (.num .nan) 0 3 "Number" =
      .invalid "Number must be a finite number" ∧
    validateNumberRange (.num (.finite 5)) 0 3 "Number" =
      .invalid ("Number must be between " ++ toString (0 : Rat) ++ " and " ++
        toString (3 : Rat)) ∧
    validateNumberRange (.num (.finite 2)) 0 3 "Number" = .valid 2 :=
  ⟨rfl,
   (validateNumberRange_cases (.num .nan) 0 3 "Number").1 rfl,
   (validateNumberRange_cases (.num (.finite 5)) 0 3 "Number").2.1 5 rfl
     (Or.inr (by decide)),
   (validateNumberRange_cases (.num (.finite 2)) 0 3 "Number").2.2 2 rfl
     (by decide) (by decide)⟩

/-- Claim C6: `validatePositiveInteger` rejects every value that is not an
integer-valued number (including all non-numbers) with the integer
message; on integers it checks positivity, rejecting values at most 0
with the positive-integer message and accepting values at least 1. -/
theorem validatePositiveInteger_cases (v : JSValue) (f : String) :
    (v.isIntegerNumber = false →
      validatePositiveInteger v f = .invalid (f ++ " must be an integer")) ∧
    (∀ q : Rat, v = .num (.finite q) → q.den = 1 → q ≤ 0 →
      validatePositiveInteger v f =
        .invalid (f ++ " must be a positive integer")) ∧
    (∀ q : Rat, v = .num (.finite q) → q.den = 1 → 1 ≤ q →
      validatePositiveInteger v f = .valid q) := by
  refine ⟨?_, ?_, ?_⟩
  · intro h
    cases v with
    | str s => rfl
    | other => rfl
    | num n =>
      cases n with
      | nan => rfl
      | posInf => rfl
      | negInf => rfl
      | finite q =>
        simp [JSValue.isIntegerNumber, JSNumber.isInteger] at h
        simp [validatePositiveInteger, h]
  · intro q hq hden hle
    subst hq
    simp [validatePositiveInteger, hden, hle]
  · intro q hq hden hge
    subst hq
    have hpos : ¬(q ≤ 0) := not_le.mpr (lt_of_lt_of_le one_pos hge)
    simp [validatePositiveInteger, hden, hpos]

/-- Claim C6, witness: `1.5` fails the integer check, `0` passes it but
fails the positivity check, and `7` is accepted. -/
theorem validatePositiveInteger_cases_witness :
    (JSValue.num (JSNumber.finite (mkRat 3 2))).isIntegerNumber = false ∧
    validatePositiveInteger (.num (.finite (mkRat 3 2))) "Number" =
      .invalid "Number must be an integer" ∧
    (0 : Rat).den = 1 ∧
    validatePositiveInteger (.num (.finite 0)) "Number" =
      .invalid "Number must be a positive integer" ∧
    validatePositiveInteger (.num (.finite 7)) "Number" = .valid 7 :=
  ⟨by decide,
   (validatePositiveInteger_cases (.num (.finite (mkRat 3 2))) "Number").1
     (by decide),
   by decide,
   (validatePositiveInteger_cases (.num (.finite 0)) "Number").2.1 0
     rfl (by decide) (by decide),
   (validatePositiveInteger_cases (.num (.finite 7)) "Number").2.2 7
     rfl (by decide) (by decide)⟩

/-- Claim C7: for any URL parser, `validateUrl` returns the string-type
message on every non-string, the URL-format message on every string the
parser rejects, and `Valid` with the original string when the parser
accepts it (in particular on a parseable URL such as
`"https://example.com"`); the two messages are distinct. -/
theorem validateUrl_cases (cp : String → Bool) (v : JSValue) (f : String) :
    (v.isString = false →
      validateUrl cp v f = .invalid (f ++ " must be a string")) ∧
    (∀ s : String, cp s = false →
      validateUrl cp (.str s) f = .invalid (f ++ " must be a valid URL")) ∧
    (cp "https://example.com" = true →
      validateUrl cp (.str "https://example.com") f =
        .valid "https://example.com") ∧
    (f ++ " must be a string") ≠ (f ++ " must be a valid URL") := by
  refine ⟨?_, ?_, ?_, ?_⟩
  · intro h
    cases v with
    | str s => simp [JSValue.isString] at h
    | num n => rfl
    | other => rfl
  · intro s hs
    simp [validateUrl, hs]
  · intro h
    simp [validateUrl, h]
  · intro hc
    have := congrArg String.length hc
    simp [String.length_append] at this
    exact absurd this (by decide)

/-- Claim C7, witness: with the spec-modelled parser, the number 123 gets
the string-type message, `"example.com"` (no scheme) gets the URL-format
message, and `"https://example.com"` is accepted. -/
theorem validateUrl_cases_witness :
    (JSValue.num (JSNumber.finite 123)).isString = false ∧
    validateUrl urlParseModel (.num (.finite 123)) "URL" =
      .invalid "URL must be a string" ∧
    urlParseModel "example.com" = false ∧
    validateUrl urlParseModel (.str "example.com") "URL" =
      .invalid "URL must be a valid URL" ∧
    urlParseModel "https://example.com" = true ∧
    validateUrl urlParseModel (.str "https://example.com") "URL" =
      .valid "https://example.com" :=
  ⟨rfl,
   (validateUrl_cases urlParseModel (.num (.finite 123)) "URL").1 rfl,
   by decide,
   (validateUrl_cases urlParseModel (.num (.finite 123)) "URL").2.1
     "example.com" (by decide),
   by decide,
   (validateUrl_cases urlParseModel (.num (.finite 123)) "URL").2.2.1
     (by decide)⟩

/-- Claim C8: `validateAll` with the empty validator sequence is the
identity — it returns `Valid` carrying the original input unchanged. -/
theorem validateAll_empty_identity (value : JSValue) :
    validateAll value [] = .valid value := rfl

/-- Claim C9: when every validator in the loop succeeds but the extra
re-invocation of the final validator on the already-updated working value
returns `Invalid`, `validateAll` discards that `Invalid` and returns
`Valid` carrying the loop's working value. -/
theorem validateAll_discards_reinvocation_invalid (value : JSValue)
    (vs : List Validator) (lastV : Validator) (w : JSValue) (e : String)
    (hlast : vs.getLast? = some lastV)
    (hloop : validateAllLoop value vs = .inr w)
    (hre : lastV w = .invalid e) :
    validateAll value vs = .valid w := by
  simp [validateAll, hloop, hlast, hre]

/-- Claim C9, witness: `shrinkA` normalizes `"a"` to `""` in the loop and
rejects `""` when re-invoked, yet `validateAll` returns `Valid ""`. -/
theorem validateAll_discards_reinvocation_invalid_witness :
    [shrinkA].getLast? = some shrinkA ∧
    validateAllLoop (.str "a") [shrinkA] = .inr (.str "") ∧
    shrinkA (.str "") = .invalid "empty" ∧
    validateAll (.str "a") [shrinkA] = .valid (.str "") :=
  ⟨rfl, rfl, rfl, validateAll_discards_reinvocation_invalid (.str "a")
    [shrinkA] shrinkA (.str "") "empty" rfl rfl rfl⟩

/-- Claim C10: against the empty options list, `validateOneOf` rejects
every string with the message `"{field} must be one of: "` followed by
the empty joined list, and no string is ever accepted. -/
theorem validateOneOf_empty_options (s f : String) :
    validateOneOf (.str s) [] f = .invalid (f ++ " must be one of: ") ∧
    ∀ t : String, validateOneOf (.str s) [] f ≠ .valid t := by
  have h : validateOneOf (.str s) [] f = .invalid (f ++ " must be one of: ") := by
    simp [validateOneOf, String.intercalate]
  refine ⟨h, fun t hc => ?_⟩
  rw [h] at hc
  exact ValidationResult.noConfusion hc

/-- Claim C10, witness: `"yellow"` against the empty options list. -/
theorem validateOneOf_empty_options_witness :
    validateOneOf (.str "yellow") [] "Field" =
      .invalid "Field must be one of: " ∧
    validateOneOf (.str "yellow") [] "Field" ≠ .valid "yellow" :=
  ⟨(validateOneOf_empty_options "yellow" "Field").1,
   (validateOneOf_empty_options "yellow" "Field").2 "yellow"⟩

end Validation
